import Mathlib

/-!
Shallow embedding of the status-reconciliation and alerting core of the
cb-eventing-watcher repository.

Modelled source files:
- `src/src/lib/database.ts` (second variant, lines 330-587): the persisted
  status store — `updateFunctionStatus`, `getLatestFunctionStatus`,
  `getLatestFunctionStatuses`, `removeOutdatedFunctions`.
- `src/unnamed/part_005` (first variant, `src/index.ts`): the reconciliation
  pass `checkEventingService`.
- `src/unnamed/part_004` (`src/index.ts`, earlier variant): the reconciliation
  pass `checkStats` with per-breach Slack alerts and the pre-loop cleanup call.
- `src/src/services/couchbaseServices.ts`: the `mapStatus` normalizer inside
  `getFunctionStats`.

The store is a list of rows in insertion order (SQLite rowid order); machine
time (`Date.now()`) is an explicit `Nat` parameter; network fetches are
`Except String` values supplied as inputs; Slack alerts and log lines are
collected in output lists instead of being sent.
-/

namespace EventingWatcher

/-- Severity of a Slack alert, from `AlertSeverity` in `slackService.ts`. -/
inductive AlertSeverity where
  | info
  | warning
  | error
deriving DecidableEq

/-- Level of a log line emitted through the logger utilities
(`log` = info, `warn`, `error`, `debug`). -/
inductive LogLevel where
  | info
  | warn
  | error
  | debug
deriving DecidableEq

/-- One row of the `function_status` SQLite table
(`src/src/lib/database.ts`, CREATE TABLE at lines 320-328).  The
autoincrement `id` column is represented by the position in the list. -/
structure StatusRow where
  functionName : String
  status : String
  message : String
  timestamp : Nat
deriving DecidableEq

/-- The `function_status` table in insertion (rowid) order. -/
abbrev Store := List StatusRow

/-- A Slack alert as assembled by `sendSlackAlert` in `slackService.ts`:
message, severity, optional subject function, and the `additionalContext`
map rendered as key/value strings. -/
structure Alert where
  message : String
  severity : AlertSeverity
  functionName : Option String
  context : List (String × String)
deriving DecidableEq

/-- Observable side effects of a reconciliation pass, in program order:
a row insert, the bulk delete, or an alert send. -/
inductive DbEvent where
  | write (row : StatusRow)
  | deleteNotIn (names : List String)
  | alertSent (a : Alert)
deriving DecidableEq

/-- Truth of `DbEvent.write`. -/
def isWriteEvent : DbEvent → Bool
  | DbEvent.write _ => true
  | _ => false

/-- Truth of `DbEvent.deleteNotIn`. -/
def isDeleteEvent : DbEvent → Bool
  | DbEvent.deleteNotIn _ => true
  | _ => false

/-- Embedding of `getLatestFunctionStatus` (`src/src/lib/database.ts`
lines 443-492): `SELECT status, message, timestamp FROM function_status
WHERE function_name = ? ORDER BY timestamp DESC LIMIT 1`, returning
`result[0] || null`.  Among rows tied on the maximum timestamp the SQL
order is unspecified; this model keeps the most recently inserted one. -/
def getLatestFunctionStatus (functionName : String) (store : Store) : Option StatusRow :=
  store.foldl
    (fun acc r =>
      if r.functionName = functionName then
        match acc with
        | none => some r
        | some b => if b.timestamp ≤ r.timestamp then some r else some b
      else acc)
    none

/-- The SQL subquery `SELECT MAX(timestamp) FROM function_status fs2 WHERE
fs2.function_name = fs1.function_name` (`src/src/lib/database.ts` line 509). -/
def maxTimestampFor (functionName : String) (store : Store) : Nat :=
  (store.filter (fun r => decide (r.functionName = functionName))).foldl
    (fun m r => Nat.max m r.timestamp) 0

/-- Ordering on rows used by the SQL `ORDER BY function_name` clause. -/
def statusRowNameLe (a b : StatusRow) : Prop := a.functionName ≤ b.functionName

instance : DecidableRel statusRowNameLe :=
  fun a b =>
    decidable_of_iff (a.functionName.toList ≤ b.functionName.toList)
      String.le_iff_toList_le.symm

instance : IsTotal StatusRow statusRowNameLe :=
  ⟨fun a b => le_total a.functionName b.functionName⟩

instance : IsTrans StatusRow statusRowNameLe :=
  ⟨fun _ _ _ h1 h2 => le_trans h1 h2⟩

/-- Embedding of `getLatestFunctionStatuses` (`src/src/lib/database.ts`
lines 494-541): `SELECT ... FROM function_status fs1 WHERE timestamp =
(SELECT MAX(timestamp) FROM function_status fs2 WHERE fs2.function_name =
fs1.function_name) ORDER BY function_name, timestamp DESC`.  The row set is
every row whose timestamp equals the per-name maximum; the secondary sort
key is constant on that set, so the result is the set sorted by name. -/
def getLatestFunctionStatuses (store : Store) : List StatusRow :=
  List.insertionSort statusRowNameLe
    (store.filter (fun r => decide (r.timestamp = maxTimestampFor r.functionName store)))

/-- Row set kept by the `DELETE FROM function_status WHERE function_name
NOT IN (?,...,?)` statement of `removeOutdatedFunctions`
(`src/src/lib/database.ts` lines 543-587): rows whose name appears in the
parameter list survive.  SQLite defines `expr NOT IN ()` as true for every
row (the empty right-hand list is explicitly permitted by SQLite and makes
`IN` false and `NOT IN` true), so an empty list keeps nothing. -/
def removeOutdatedFunctionsRun (currentFunctions : List String) (store : Store) : Store :=
  store.filter (fun r => currentFunctions.contains r.functionName)

/-- Embedding of `removeOutdatedFunctions` (`src/src/lib/database.ts`
lines 543-587).  The codomain is `Except` because storage errors propagate
to the caller; the generated statement itself is valid SQLite for every
parameter list, including the empty one, so the operation always succeeds
in this model. -/
def removeOutdatedFunctions (currentFunctions : List String) (store : Store) :
    Except String Store :=
  Except.ok (removeOutdatedFunctionsRun currentFunctions store)

/-- The transition-alert base message built at `src/src/lib/database.ts`
line 383; it names both the previous and the current status. -/
def changedMessage (functionName prevStatus newStatus : String) : String :=
  "Function " ++ functionName ++ " status changed from " ++ prevStatus ++ " to " ++ newStatus

/-- The special recovery message of `src/src/lib/database.ts` line 393. -/
def recoveredMessage (functionName : String) : String :=
  "Function " ++ functionName ++ " has recovered and is now operating normally"

/-- The `additionalContext` of a transition alert
(`src/src/lib/database.ts` lines 407-412), with the timestamp rendered as
a decimal string in place of the ISO string. -/
def transitionContext (prevStatus newStatus message : String) (timestamp : Nat) :
    List (String × String) :=
  [("previousStatus", prevStatus), ("currentStatus", newStatus),
   ("message", message), ("timestamp", toString timestamp)]

/-- The transition alert assembled at `src/src/lib/database.ts` lines
382-413: the default is the changed message at info severity; a new status
of `error` or `paused` raises the severity to warning; otherwise a move
into `deployed` from `error` or `paused` swaps in the recovery message. -/
def mkTransitionAlert (functionName newStatus prevStatus message : String)
    (timestamp : Nat) : Alert :=
  if newStatus = "error" ∨ newStatus = "paused" then
    { message := changedMessage functionName prevStatus newStatus
      severity := AlertSeverity.warning
      functionName := some functionName
      context := transitionContext prevStatus newStatus message timestamp }
  else if newStatus = "deployed" ∧ (prevStatus = "error" ∨ prevStatus = "paused") then
    { message := recoveredMessage functionName
      severity := AlertSeverity.info
      functionName := some functionName
      context := transitionContext prevStatus newStatus message timestamp }
  else
    { message := changedMessage functionName prevStatus newStatus
      severity := AlertSeverity.info
      functionName := some functionName
      context := transitionContext prevStatus newStatus message timestamp }

/-- What one call of `updateFunctionStatus` produces: the new table state,
the alerts sent, the side-effect trace, and the log lines (only the first
log line, the one carrying the `previousStatus` argument, plus the
change/no-change line are modelled; the others carry no decision data). -/
structure UpdateResult where
  store : Store
  alerts : List Alert
  events : List DbEvent
  logs : List (LogLevel × String)
deriving DecidableEq

/-- Rendering of the nullable `previousStatus` argument into the first log
line of `updateFunctionStatus`. -/
def renderPreviousStatus : Option String → String
  | none => "null"
  | some s => s

/-- Embedding of `updateFunctionStatus` (`src/src/lib/database.ts` lines
330-441).  It logs its arguments (including the caller-supplied
`previousStatus`), re-reads the latest stored status for the function,
always inserts the new row, and then sends exactly one transition alert
precisely when a latest row existed and its status string differs from the
new one; the caller-supplied `previousStatus` is never consulted for that
decision. -/
def updateFunctionStatus (functionName status message : String) (timestamp : Nat)
    (previousStatus : Option String) (store : Store) : UpdateResult :=
  let startLog : LogLevel × String :=
    (LogLevel.info,
      "Updating status for " ++ functionName ++ ": previousStatus=" ++
        renderPreviousStatus previousStatus ++ " newStatus=" ++ status)
  let latest := getLatestFunctionStatus functionName store
  let newRow : StatusRow :=
    { functionName := functionName, status := status, message := message,
      timestamp := timestamp }
  let store2 := store ++ [newRow]
  match latest with
  | none =>
      { store := store2, alerts := [], events := [DbEvent.write newRow],
        logs := [startLog, (LogLevel.info, "No status change for " ++ functionName)] }
  | some l =>
      if l.status = status then
        { store := store2, alerts := [], events := [DbEvent.write newRow],
          logs := [startLog, (LogLevel.info, "No status change for " ++ functionName)] }
      else
        let a := mkTransitionAlert functionName status l.status message timestamp
        { store := store2, alerts := [a],
          events := [DbEvent.write newRow, DbEvent.alertSent a],
          logs := [startLog, (LogLevel.info, "Sending alert for " ++ functionName)] }

/-- Server-reported status object `status.app` of one eventing function
(`checkFunctionStatus` response, used at `src/unnamed/part_005` lines 55-80). -/
structure AppStatus where
  composite_status : String
  deployment_status : String
  processing_status : String
  redeploy_required : Bool
deriving DecidableEq

/-- The fields of the execution-stats response consumed by the passes
(`on_update_failure`, `on_delete_failure`). -/
structure ExecutionStats where
  on_update_failure : Nat
  on_delete_failure : Nat
deriving DecidableEq

/-- The field of the failure-stats response consumed by the passes. -/
structure FailureStats where
  timeout_count : Nat
deriving DecidableEq

/-- The DCP backlog response (`getDcpEventsRemaining`). -/
structure DcpBacklogSize where
  dcp_backlog : Nat
deriving DecidableEq

/-- Everything the four per-function fetches return for one function. -/
structure FnData where
  app : AppStatus
  executionStats : ExecutionStats
  failureStats : FailureStats
  dcpBacklog : DcpBacklogSize
deriving DecidableEq

/-- The `statusMessage` computed by `checkEventingService`
(`src/unnamed/part_005` lines 55-113): it starts as the function name plus
the composite status and is then overwritten, in source order, by the
redeploy-required, backlog, execution-failure and timeout checks, so the
last applicable check determines the final message. -/
def computeStatusMessage (functionName : String) (d : FnData) (threshold : Nat) : String :=
  let m0 := "Eventing Function: " ++ functionName ++ " " ++ d.app.composite_status
  let m1 := if d.app.redeploy_required then
      "Eventing Function: " ++ functionName ++ " requires redeployment" else m0
  let m2 := if d.dcpBacklog.dcp_backlog > threshold then
      "DCP backlog size exceeds threshold" else m1
  let m3 := if d.executionStats.on_update_failure > 0 ∨ d.executionStats.on_delete_failure > 0 then
      "Function execution failures detected" else m2
  let m4 := if d.failureStats.timeout_count > 0 then
      "Eventing Function: " ++ functionName ++ " has timeouts detected" else m3
  m4

/-- The message rule of `checkEventingService` restated the way the
amended claim C4 reads: the first breach present in the precedence order
timeouts, execution failures, backlog, redeploy-required determines the
message (equivalently, the last breach in the source's check order wins),
and the composite-status message appears only when no breach is present. -/
def specMessagePrecedence (functionName : String) (d : FnData) (threshold : Nat) : String :=
  if d.failureStats.timeout_count > 0 then
    "Eventing Function: " ++ functionName ++ " has timeouts detected"
  else if d.executionStats.on_update_failure > 0 ∨ d.executionStats.on_delete_failure > 0 then
    "Function execution failures detected"
  else if d.dcpBacklog.dcp_backlog > threshold then
    "DCP backlog size exceeds threshold"
  else if d.app.redeploy_required then
    "Eventing Function: " ++ functionName ++ " requires redeployment"
  else
    "Eventing Function: " ++ functionName ++ " " ++ d.app.composite_status

/-- One iteration of the `checkEventingService` loop (`src/unnamed/part_005`
lines 44-195): on fetch success the composite status and the computed
message are persisted; on fetch failure the forced `error` status with the
`Error checking function: ...` message is persisted.  In both branches the
previous status is read from the store and passed along, and
`updateFunctionStatus` performs the write plus the transition-alert
decision. -/
def processFunction (fetch : String → Except String FnData) (threshold now : Nat)
    (store : Store) (functionName : String) : UpdateResult :=
  match fetch functionName with
  | Except.ok d =>
      let functionStatus := d.app.composite_status
      let statusMessage := computeStatusMessage functionName d threshold
      let previousStatus := (getLatestFunctionStatus functionName store).map (fun l => l.status)
      updateFunctionStatus functionName functionStatus statusMessage now previousStatus store
  | Except.error e =>
      let previousStatus := (getLatestFunctionStatus functionName store).map (fun l => l.status)
      updateFunctionStatus functionName "error" ("Error checking function: " ++ e) now
        previousStatus store

/-- The `for` loop of `checkEventingService` over the live function list,
threading the store and collecting alerts, events and logs in order. -/
def checkLoop (fetch : String → Except String FnData) (threshold now : Nat) :
    List String → Store → UpdateResult
  | [], store => { store := store, alerts := [], events := [], logs := [] }
  | functionName :: rest, store =>
      let u := processFunction fetch threshold now store functionName
      let r := checkLoop fetch threshold now rest u.store
      { store := r.store, alerts := u.alerts ++ r.alerts,
        events := u.events ++ r.events, logs := u.logs ++ r.logs }

/-- Outcome of one reconciliation pass: final table state, alerts sent,
side-effect trace, and the value passed to `setApplicationStatus`. -/
structure PassResult where
  store : Store
  alerts : List Alert
  events : List DbEvent
  healthy : Bool
deriving DecidableEq

/-- The process-level alert of the outer catch of `checkEventingService`
(`src/unnamed/part_005` lines 205-220). -/
def enumerationFailureAlert (e : String) : Alert :=
  { message := "Error checking Couchbase Eventing Functions"
    severity := AlertSeverity.error
    functionName := none
    context := [("error", e),
                ("stage", "Initial Eventing Function list fetch or overall process")] }

/-- Embedding of one `checkEventingService` pass (`src/unnamed/part_005`
lines 31-221).  The function-list fetch result and the per-function fetch
results are inputs.  A failed enumeration reaches the outer catch: the
store is untouched, one process-level error alert is sent and the health
flag is set to false.  A successful enumeration runs the loop, then the
bulk delete, then sets the health flag to true; a storage error from the
bulk delete would also reach the outer catch (in this model the delete
statement never fails). -/
def checkEventingService (listResult : Except String (List String))
    (fetch : String → Except String FnData) (threshold now : Nat)
    (store : Store) : PassResult :=
  match listResult with
  | Except.error e =>
      { store := store, alerts := [enumerationFailureAlert e],
        events := [DbEvent.alertSent (enumerationFailureAlert e)], healthy := false }
  | Except.ok functionList =>
      let r := checkLoop fetch threshold now functionList store
      match removeOutdatedFunctions functionList r.store with
      | Except.ok store2 =>
          { store := store2, alerts := r.alerts,
            events := r.events ++ [DbEvent.deleteNotIn functionList], healthy := true }
      | Except.error e =>
          { store := r.store, alerts := r.alerts ++ [enumerationFailureAlert e],
            events := r.events ++ [DbEvent.alertSent (enumerationFailureAlert e)],
            healthy := false }

/-- The redeploy-required breach alert of `checkStats`
(`src/unnamed/part_004` lines 45-53). -/
def redeployAlert (functionName : String) (app : AppStatus) : Alert :=
  { message := "Function requires redeployment"
    severity := AlertSeverity.warning
    functionName := some functionName
    context := [("status", app.composite_status),
                ("deploymentStatus", app.deployment_status),
                ("processingStatus", app.processing_status)] }

/-- The DCP-backlog breach alert of `checkStats`
(`src/unnamed/part_004` lines 64-71): fixed error severity, carrying the
backlog size and the configured threshold. -/
def backlogAlert (functionName : String) (backlogSize threshold : Nat) : Alert :=
  { message := "DCP backlog size exceeds threshold"
    severity := AlertSeverity.error
    functionName := some functionName
    context := [("backlogSize", toString backlogSize),
                ("threshold", toString threshold)] }

/-- The execution-failures breach alert of `checkStats`
(`src/unnamed/part_004` lines 85-92). -/
def executionFailuresAlert (functionName : String) (onUpdateFailures onDeleteFailures : Nat) :
    Alert :=
  { message := "Function execution failures detected"
    severity := AlertSeverity.warning
    functionName := some functionName
    context := [("onUpdateFailures", toString onUpdateFailures),
                ("onDeleteFailures", toString onDeleteFailures)] }

/-- The timeouts breach alert of `checkStats`
(`src/unnamed/part_004` lines 102-108). -/
def timeoutsAlert (functionName : String) (timeoutCount : Nat) : Alert :=
  { message := "Function timeouts detected"
    severity := AlertSeverity.warning
    functionName := some functionName
    context := [("timeoutCount", toString timeoutCount)] }

/-- The immediate breach alerts one `checkStats` iteration sends for one
function (`src/unnamed/part_004` lines 36-109), in source order; each of
the four conditions is tested independently. -/
def checkStatsFunctionAlerts (functionName : String) (d : FnData) (threshold : Nat) :
    List Alert :=
  (if d.app.redeploy_required then [redeployAlert functionName d.app] else []) ++
  (if d.dcpBacklog.dcp_backlog > threshold then
      [backlogAlert functionName d.dcpBacklog.dcp_backlog threshold] else []) ++
  (if d.executionStats.on_update_failure > 0 ∨ d.executionStats.on_delete_failure > 0 then
      [executionFailuresAlert functionName d.executionStats.on_update_failure
        d.executionStats.on_delete_failure] else []) ++
  (if d.failureStats.timeout_count > 0 then
      [timeoutsAlert functionName d.failureStats.timeout_count] else [])

/-- The `statusMessage` of one `checkStats` iteration
(`src/unnamed/part_004` lines 34-109): same overwrite pattern as
`computeStatusMessage`, with the `checkStats` wording. -/
def checkStatsMessage (d : FnData) (threshold : Nat) : String :=
  let m0 := "Function operating normally"
  let m1 := if d.app.redeploy_required then "Function requires redeployment" else m0
  let m2 := if d.dcpBacklog.dcp_backlog > threshold then
      "DCP backlog size exceeds threshold" else m1
  let m3 := if d.executionStats.on_update_failure > 0 ∨ d.executionStats.on_delete_failure > 0 then
      "Function execution failures detected" else m2
  let m4 := if d.failureStats.timeout_count > 0 then "Function timeouts detected" else m3
  m4

/-- The `functionHealthy` flag of one `checkStats` iteration
(`src/unnamed/part_004` lines 33-109): true only when none of the four
breach conditions holds. -/
def checkStatsHealthy (d : FnData) (threshold : Nat) : Bool :=
  !(d.app.redeploy_required
    || decide (d.dcpBacklog.dcp_backlog > threshold)
    || decide (d.executionStats.on_update_failure > 0 ∨ d.executionStats.on_delete_failure > 0)
    || decide (d.failureStats.timeout_count > 0))

/-- Embedding of the first variant of `updateFunctionStatus`
(`src/src/lib/database.ts` lines 101-146, imported by `checkStats`):
`INSERT OR REPLACE` on a table whose only uniqueness constraint is the
autoincrement id never hits a conflict, so it is a plain insert, and this
variant sends no alerts. -/
def updateFunctionStatusV1 (functionName status message : String) (timestamp : Nat)
    (store : Store) : Store :=
  store ++ [{ functionName := functionName, status := status, message := message,
              timestamp := timestamp }]

/-- The per-function alert of the inner catch of `checkStats`
(`src/unnamed/part_004` lines 136-146). -/
def checkStatsFunctionErrorAlert (functionName e : String) : Alert :=
  { message := "Error checking Couchbase function: " ++ functionName
    severity := AlertSeverity.error
    functionName := some functionName
    context := [("error", e), ("stage", "individual function check")] }

/-- One iteration of the `checkStats` loop (`src/unnamed/part_004` lines
22-148): breach alerts are sent inside the condition blocks, then the
success/error verdict row is written; the inner catch writes the forced
error row and then sends the per-function error alert. -/
def checkStatsProcessFunction (fetch : String → Except String FnData) (threshold now : Nat)
    (store : Store) (functionName : String) : Store × List Alert × List DbEvent :=
  match fetch functionName with
  | Except.ok d =>
      let alerts := checkStatsFunctionAlerts functionName d threshold
      let statusMessage := checkStatsMessage d threshold
      let verdict := if checkStatsHealthy d threshold then "success" else "error"
      let newRow : StatusRow :=
        { functionName := functionName, status := verdict, message := statusMessage,
          timestamp := now }
      (updateFunctionStatusV1 functionName verdict statusMessage now store, alerts,
        alerts.map DbEvent.alertSent ++ [DbEvent.write newRow])
  | Except.error e =>
      let statusMessage := "Error checking function: " ++ e
      let a := checkStatsFunctionErrorAlert functionName e
      let newRow : StatusRow :=
        { functionName := functionName, status := "error", message := statusMessage,
          timestamp := now }
      (updateFunctionStatusV1 functionName "error" statusMessage now store, [a],
        [DbEvent.write newRow, DbEvent.alertSent a])

/-- The `for` loop of `checkStats` over the live function list. -/
def checkStatsLoop (fetch : String → Except String FnData) (threshold now : Nat) :
    List String → Store → Store × List Alert × List DbEvent
  | [], store => (store, [], [])
  | functionName :: rest, store =>
      let u := checkStatsProcessFunction fetch threshold now store functionName
      let r := checkStatsLoop fetch threshold now rest u.1
      (r.1, u.2.1 ++ r.2.1, u.2.2 ++ r.2.2)

/-- The process-level alert of the outer catch of `checkStats`
(`src/unnamed/part_004` lines 151-162). -/
def checkStatsEnumerationAlert (e : String) : Alert :=
  { message := "Error checking Couchbase function stats"
    severity := AlertSeverity.error
    functionName := none
    context := [("error", e),
                ("stage", "initial function list fetch or overall process")] }

/-- Embedding of one `checkStats` pass (`src/unnamed/part_004` lines
11-163).  After a successful enumeration this variant calls
`removeOutdatedFunctions(functionList)` BEFORE the per-function loop
(line 20), so its bulk delete precedes every status write of the pass. -/
def checkStats (listResult : Except String (List String))
    (fetch : String → Except String FnData) (threshold now : Nat)
    (store : Store) : PassResult :=
  match listResult with
  | Except.error e =>
      { store := store, alerts := [checkStatsEnumerationAlert e],
        events := [DbEvent.alertSent (checkStatsEnumerationAlert e)], healthy := false }
  | Except.ok functionList =>
      match removeOutdatedFunctions functionList store with
      | Except.ok store0 =>
          let r := checkStatsLoop fetch threshold now functionList store0
          { store := r.1, alerts := r.2.1,
            events := DbEvent.deleteNotIn functionList :: r.2.2, healthy := true }
      | Except.error e =>
          { store := store, alerts := [checkStatsEnumerationAlert e],
            events := [DbEvent.alertSent (checkStatsEnumerationAlert e)], healthy := false }

/-- The raw composite statuses the `mapStatus` helper of `getFunctionStats`
recognizes (`src/src/services/couchbaseServices.ts` lines 266-282); note
that `error` is not among them. -/
def recognizedStatuses : List String :=
  ["deployed", "undeployed", "paused", "deploying", "undeploying"]

/-- The log line of the `mapStatus` default branch
(`src/src/services/couchbaseServices.ts` line 279). -/
def unknownStatusMessage (rawStatus : String) : String :=
  "Unknown status: " ++ rawStatus ++ ", defaulting to undeployed"

/-- ASCII lowering of one character, the behaviour of JavaScript
`String.prototype.toLowerCase` on the ASCII range (status strings are
ASCII). -/
def charToLowerCase (c : Char) : Char :=
  if 'A' ≤ c ∧ c ≤ 'Z' then Char.ofNat (c.toNat + 32) else c

/-- JavaScript `rawStatus.toLowerCase()` restricted to ASCII input. -/
def toLowerCase (s : String) : String := String.mk (s.data.map charToLowerCase)

/-- Embedding of the `mapStatus` helper inside `getFunctionStats`
(`src/src/services/couchbaseServices.ts` lines 266-282): a switch on the
lowercased raw status over the five recognized values; the default branch
returns `undeployed` and emits one log line through `log`, the info-level
logger (not `warn`). -/
def mapStatus (rawStatus : String) : String × List (LogLevel × String) :=
  let s := toLowerCase rawStatus
  if s = "deployed" then ("deployed", [])
  else if s = "undeployed" then ("undeployed", [])
  else if s = "paused" then ("paused", [])
  else if s = "deploying" then ("deploying", [])
  else if s = "undeploying" then ("undeploying", [])
  else ("undeployed", [(LogLevel.info, unknownStatusMessage rawStatus)])

/-- No two rows of the store share a function name and a timestamp.  Under
this assumption the per-name maximum-timestamp row is unique. -/
def NoTimestampTies (store : Store) : Prop :=
  ∀ r1 ∈ store, ∀ r2 ∈ store,
    r1.functionName = r2.functionName → r1.timestamp = r2.timestamp → r1 = r2

instance (store : Store) : Decidable (NoTimestampTies store) := by
  unfold NoTimestampTies; infer_instance

/-- C1: `updateFunctionStatus` sends at most one transition alert per call,
and it sends exactly one precisely when the store already holds a latest
record for the function whose status string differs from the new status.
Together the two conjuncts give the first-observation case: with no
previous record the alert count cannot be one, hence is zero, even when
the new status is `error`. -/
theorem C1_transition_alert_iff (functionName status message : String) (timestamp : Nat)
    (previousStatus : Option String) (store : Store) :
    (updateFunctionStatus functionName status message timestamp previousStatus store).alerts.length ≤ 1 ∧
    ((updateFunctionStatus functionName status message timestamp previousStatus store).alerts.length = 1 ↔
      ∃ l, getLatestFunctionStatus functionName store = some l ∧ l.status ≠ status) := by
  cases h : getLatestFunctionStatus functionName store with
  | none => simp [updateFunctionStatus, h]
  | some l =>
      by_cases hs : l.status = status <;>
        simp [updateFunctionStatus, h, hs]

/-- C2: when a transition alert fires, its severity and message follow the
source rule: a new status of `error` or `paused` gives severity warning
with the message naming both statuses; a move into `deployed` from `error`
or `paused` gives severity info with the recovery message; every other
differing transition gives severity info with the message naming both
statuses. -/
theorem C2_transition_alert_severity (functionName status message : String)
    (timestamp : Nat) (previousStatus : Option String) (store : Store) (l : StatusRow)
    (hl : getLatestFunctionStatus functionName store = some l)
    (hne : l.status ≠ status) :
    (updateFunctionStatus functionName status message timestamp previousStatus store).alerts
      = [mkTransitionAlert functionName status l.status message timestamp] ∧
    ((status = "error" ∨ status = "paused") →
      (mkTransitionAlert functionName status l.status message timestamp).severity
          = AlertSeverity.warning ∧
      (mkTransitionAlert functionName status l.status message timestamp).message
          = changedMessage functionName l.status status) ∧
    (status = "deployed" → (l.status = "error" ∨ l.status = "paused") →
      (mkTransitionAlert functionName status l.status message timestamp).severity
          = AlertSeverity.info ∧
      (mkTransitionAlert functionName status l.status message timestamp).message
          = recoveredMessage functionName) ∧
    (¬(status = "error" ∨ status = "paused") →
      ¬(status = "deployed" ∧ (l.status = "error" ∨ l.status = "paused")) →
      (mkTransitionAlert functionName status l.status message timestamp).severity
          = AlertSeverity.info ∧
      (mkTransitionAlert functionName status l.status message timestamp).message
          = changedMessage functionName l.status status) := by
  refine ⟨?_, ?_, ?_, ?_⟩
  · simp [updateFunctionStatus, hl, hne]
  · intro h
    rw [mkTransitionAlert, if_pos h]
    exact ⟨rfl, rfl⟩
  · intro hd hprev
    subst hd
    rw [mkTransitionAlert, if_neg (by decide), if_pos ⟨rfl, hprev⟩]
    exact ⟨rfl, rfl⟩
  · intro h1 h2
    rw [mkTransitionAlert, if_neg h1, if_neg h2]
    exact ⟨rfl, rfl⟩

/-- Store holding one `error` row, used to exercise the recovery branch. -/
def c2Row : StatusRow :=
  { functionName := "f1", status := "error", message := "boom", timestamp := 1 }

/-- Concrete store for the C2 witness. -/
def c2Store : Store := [c2Row]

/-- Witness for C2 at a concrete input: prior status `error`, new status
`deployed` gives exactly one alert at info severity with the recovery
message. -/
theorem C2_transition_alert_severity_witness :
    getLatestFunctionStatus "f1" c2Store = some c2Row ∧
    c2Row.status ≠ "deployed" ∧
    (updateFunctionStatus "f1" "deployed" "m" 5 (some "error") c2Store).alerts
      = [mkTransitionAlert "f1" "deployed" c2Row.status "m" 5] ∧
    (mkTransitionAlert "f1" "deployed" c2Row.status "m" 5).severity = AlertSeverity.info ∧
    (mkTransitionAlert "f1" "deployed" c2Row.status "m" 5).message = recoveredMessage "f1" :=
  have h := C2_transition_alert_severity "f1" "deployed" "m" 5 (some "error") c2Store c2Row
    (by decide) (by decide)
  ⟨by decide, by decide, h.1,
    (h.2.2.1 rfl (Or.inl rfl)).1, (h.2.2.1 rfl (Or.inl rfl)).2⟩

/-- C9: the caller-supplied `previousStatus` argument of
`updateFunctionStatus` does not influence the inserted row, the alert
decision, or the side-effect trace: for any two values of the argument and
otherwise identical arguments and store, the `store`, `alerts` and
`events` components coincide (the argument only appears in a log line,
because the transition comparison re-reads the latest stored status). -/
theorem C9_previousStatus_noninterference (functionName status message : String)
    (timestamp : Nat) (p1 p2 : Option String) (store : Store) :
    (updateFunctionStatus functionName status message timestamp p1 store).store
      = (updateFunctionStatus functionName status message timestamp p2 store).store ∧
    (updateFunctionStatus functionName status message timestamp p1 store).alerts
      = (updateFunctionStatus functionName status message timestamp p2 store).alerts ∧
    (updateFunctionStatus functionName status message timestamp p1 store).events
      = (updateFunctionStatus functionName status message timestamp p2 store).events := by
  cases h : getLatestFunctionStatus functionName store with
  | none => simp [updateFunctionStatus, h]
  | some l =>
      by_cases hs : l.status = status <;>
        simp [updateFunctionStatus, h, hs]

/-- The inserted row of `updateFunctionStatus` is appended to the store in
every branch. -/
theorem updateFunctionStatus_store_eq (functionName status message : String)
    (timestamp : Nat) (previousStatus : Option String) (store : Store) :
    (updateFunctionStatus functionName status message timestamp previousStatus store).store
      = store ++ [{ functionName := functionName, status := status, message := message,
                    timestamp := timestamp }] := by
  cases h : getLatestFunctionStatus functionName store with
  | none => simp [updateFunctionStatus, h]
  | some l =>
      by_cases hs : l.status = status <;>
        simp [updateFunctionStatus, h, hs]

/-- C3: when the live-list fetch fails, the `checkEventingService` pass
leaves the store untouched, sends exactly the one process-level alert,
that alert has severity error, and the health flag is set to false; when
the live-list fetch succeeds the health flag is set to true no matter how
many per-function fetches fail. -/
theorem C3_enumeration_failure_aborts (fetch : String → Except String FnData)
    (threshold now : Nat) (store : Store) (e : String) (functionList : List String) :
    (checkEventingService (Except.error e) fetch threshold now store).store = store ∧
    (checkEventingService (Except.error e) fetch threshold now store).alerts
      = [enumerationFailureAlert e] ∧
    (enumerationFailureAlert e).severity = AlertSeverity.error ∧
    (checkEventingService (Except.error e) fetch threshold now store).healthy = false ∧
    (checkEventingService (Except.ok functionList) fetch threshold now store).healthy = true :=
  ⟨rfl, rfl, rfl, rfl, rfl⟩

/-- C4 (amended): for a successfully fetched function, the row the pass
persists keeps the raw composite status and carries the message of the
LAST breach present in the source's check order (redeploy-required,
backlog, execution failures, timeouts) — equivalently, the first breach in
the precedence order timeouts, execution failures, backlog exceeded,
redeploy required — with the composite-status message only when no breach
is present. -/
theorem C4_last_breach_message_persisted (fetch : String → Except String FnData)
    (threshold now : Nat) (store : Store) (functionName : String) (d : FnData)
    (hfetch : fetch functionName = Except.ok d) :
    ∃ row : StatusRow,
      (processFunction fetch threshold now store functionName).store = store ++ [row] ∧
      row.functionName = functionName ∧
      row.status = d.app.composite_status ∧
      row.message = specMessagePrecedence functionName d threshold := by
  have hproc : processFunction fetch threshold now store functionName
      = updateFunctionStatus functionName d.app.composite_status
          (computeStatusMessage functionName d threshold) now
          ((getLatestFunctionStatus functionName store).map (fun l => l.status)) store := by
    unfold processFunction
    rw [hfetch]
  have hmsg : computeStatusMessage functionName d threshold
      = specMessagePrecedence functionName d threshold := by
    unfold computeStatusMessage specMessagePrecedence
    rfl
  have h1 := congrArg UpdateResult.store hproc
  have h2 := updateFunctionStatus_store_eq functionName d.app.composite_status
    (computeStatusMessage functionName d threshold) now
    ((getLatestFunctionStatus functionName store).map (fun l => l.status)) store
  have h3 := h1.trans h2
  exact ⟨{ functionName := functionName, status := d.app.composite_status,
           message := computeStatusMessage functionName d threshold, timestamp := now },
         h3, rfl, rfl, hmsg⟩

/-- Stats with the redeploy-required flag set and timeouts present, no
other breach: the claimed precedence predicts the redeploy message, the
code produces the timeouts message. -/
def c4Data : FnData :=
  { app := { composite_status := "deployed", deployment_status := "deployed",
             processing_status := "running", redeploy_required := true }
    executionStats := { on_update_failure := 0, on_delete_failure := 0 }
    failureStats := { timeout_count := 3 }
    dcpBacklog := { dcp_backlog := 0 } }

/-- Fetch oracle returning `c4Data` for every function. -/
def c4Fetch : String → Except String FnData := fun _ => Except.ok c4Data

/-- Counterexample to C4 as stated: with `redeployRequired = true` and
`timeout_count = 3` the persisted headline message of the pass is the
timeouts message, not the redeploy-required one the claimed precedence
demands. -/
theorem C4_counterexample :
    ((checkEventingService (Except.ok ["f1"]) c4Fetch 1000 50 []).store).map
        (fun r => r.message)
      = ["Eventing Function: f1 has timeouts detected"] ∧
    ("Eventing Function: f1 has timeouts detected" : String)
      ≠ "Eventing Function: f1 requires redeployment" :=
  ⟨by decide, by decide⟩

/-- Witness for C4 (amended) at the same concrete stats: the persisted
message equals the reversed-precedence message. -/
theorem C4_last_breach_message_persisted_witness :
    c4Fetch "f1" = Except.ok c4Data ∧
    ∃ row : StatusRow,
      (processFunction c4Fetch 1000 50 [] "f1").store = [] ++ [row] ∧
      row.functionName = "f1" ∧
      row.status = c4Data.app.composite_status ∧
      row.message = specMessagePrecedence "f1" c4Data 1000 :=
  ⟨rfl, C4_last_breach_message_persisted c4Fetch 1000 50 [] "f1" c4Data rfl⟩

/-- Truth of an alert being the DCP-backlog breach alert, identified by its
fixed message. -/
def isBacklogAlertMessage (a : Alert) : Bool :=
  decide (a.message = "DCP backlog size exceeds threshold")

/-- C5: among the immediate breach alerts of one `checkStats` iteration,
the backlog alert appears exactly when the backlog strictly exceeds the
threshold (so a backlog equal to the threshold produces none), and it
carries severity error together with the backlog size and the threshold. -/
theorem C5_backlog_alert_iff (functionName : String) (d : FnData) (threshold : Nat) :
    (checkStatsFunctionAlerts functionName d threshold).filter isBacklogAlertMessage
      = (if d.dcpBacklog.dcp_backlog > threshold then
          [backlogAlert functionName d.dcpBacklog.dcp_backlog threshold] else []) ∧
    (backlogAlert functionName d.dcpBacklog.dcp_backlog threshold).severity
      = AlertSeverity.error ∧
    (backlogAlert functionName d.dcpBacklog.dcp_backlog threshold).context
      = [("backlogSize", toString d.dcpBacklog.dcp_backlog),
         ("threshold", toString threshold)] := by
  refine ⟨?_, rfl, rfl⟩
  by_cases h1 : d.app.redeploy_required <;>
  by_cases h2 : d.dcpBacklog.dcp_backlog > threshold <;>
  by_cases h3 : d.executionStats.on_update_failure > 0 ∨ d.executionStats.on_delete_failure > 0 <;>
  by_cases h4 : d.failureStats.timeout_count > 0 <;>
  simp [checkStatsFunctionAlerts, h1, h2, h3, h4, isBacklogAlertMessage,
    redeployAlert, backlogAlert, executionFailuresAlert, timeoutsAlert]

/-- The side-effect trace of one `updateFunctionStatus` call contains no
bulk delete. -/
theorem updateFunctionStatus_events_no_delete (functionName status message : String)
    (timestamp : Nat) (previousStatus : Option String) (store : Store) :
    ((updateFunctionStatus functionName status message timestamp previousStatus store).events).countP
        isDeleteEvent = 0 := by
  cases h : getLatestFunctionStatus functionName store with
  | none => simp [updateFunctionStatus, h, isDeleteEvent]
  | some l =>
      by_cases hs : l.status = status <;>
        simp [updateFunctionStatus, h, hs, isDeleteEvent]

/-- The side-effect trace of one loop iteration contains no bulk delete. -/
theorem processFunction_events_no_delete (fetch : String → Except String FnData)
    (threshold now : Nat) (store : Store) (functionName : String) :
    ((processFunction fetch threshold now store functionName).events).countP
        isDeleteEvent = 0 := by
  unfold processFunction
  cases hf : fetch functionName with
  | ok d => exact updateFunctionStatus_events_no_delete _ _ _ _ _ _
  | error e => exact updateFunctionStatus_events_no_delete _ _ _ _ _ _

/-- The side-effect trace of the whole `checkEventingService` loop contains
no bulk delete. -/
theorem checkLoop_events_no_delete (fetch : String → Except String FnData)
    (threshold now : Nat) :
    ∀ (names : List String) (store : Store),
      ((checkLoop fetch threshold now names store).events).countP isDeleteEvent = 0
  | [], _ => by simp [checkLoop]
  | functionName :: rest, store => by
      simp [checkLoop, List.countP_append,
        processFunction_events_no_delete fetch threshold now store functionName,
        checkLoop_events_no_delete fetch threshold now rest]

/-- C6 (amended): in every `checkEventingService` pass with a successful
enumeration, the bulk delete appears exactly once in the side-effect
trace, as the final event, after the entire per-function loop (hence after
every status write of the pass).  The `checkStats` variant orders it
differently, see the counterexample. -/
theorem C6_delete_last_in_checkEventingService (fetch : String → Except String FnData)
    (threshold now : Nat) (store : Store) (functionList : List String) :
    ∃ pre,
      (checkEventingService (Except.ok functionList) fetch threshold now store).events
        = pre ++ [DbEvent.deleteNotIn functionList] ∧
      pre.countP isDeleteEvent = 0 ∧
      pre = (checkLoop fetch threshold now functionList store).events :=
  ⟨(checkLoop fetch threshold now functionList store).events, rfl,
    checkLoop_events_no_delete fetch threshold now functionList store, rfl⟩

/-- Healthy stats used by the C6 counterexample: no breach at all. -/
def c6Data : FnData :=
  { app := { composite_status := "deployed", deployment_status := "deployed",
             processing_status := "running", redeploy_required := false }
    executionStats := { on_update_failure := 0, on_delete_failure := 0 }
    failureStats := { timeout_count := 0 }
    dcpBacklog := { dcp_backlog := 0 } }

/-- Fetch oracle returning `c6Data` for every function. -/
def c6Fetch : String → Except String FnData := fun _ => Except.ok c6Data

/-- Counterexample to C6 as stated: in the `checkStats` reconciliation
pass (`src/unnamed/part_004`), the bulk delete is the FIRST event of the
trace and a per-function status write follows it, so the delete does not
run after all per-function writes of the pass. -/
theorem C6_counterexample :
    ((checkStats (Except.ok ["f1"]) c6Fetch 10 100 []).events).head?
        = some (DbEvent.deleteNotIn ["f1"]) ∧
    (((checkStats (Except.ok ["f1"]) c6Fetch 10 100 []).events).drop 1).countP
        isWriteEvent = 1 :=
  ⟨by decide, by decide⟩

/-- The seed of a running maximum never exceeds the result. -/
theorem le_foldl_max_seed : ∀ (l : List Nat) (a : Nat), a ≤ l.foldl Nat.max a := by
  intro l
  induction l with
  | nil => intro a; exact Nat.le_refl a
  | cons b t ih =>
      intro a
      exact le_trans (Nat.le_max_left a b) (ih (Nat.max a b))

/-- Every list element is bounded by the running maximum. -/
theorem foldl_max_le_of_mem :
    ∀ (l : List Nat) (a x : Nat), x ∈ l → x ≤ l.foldl Nat.max a := by
  intro l
  induction l with
  | nil => intro a x hx; exact absurd hx (List.not_mem_nil x)
  | cons b t ih =>
      intro a x hx
      rcases List.mem_cons.mp hx with h | h
      · subst h
        exact le_trans (Nat.le_max_right a x) (le_foldl_max_seed t (Nat.max a x))
      · exact ih (Nat.max a b) x h

/-- The running maximum is either the seed or attained by an element. -/
theorem foldl_max_eq_or_mem :
    ∀ (l : List Nat) (a : Nat), l.foldl Nat.max a = a ∨ l.foldl Nat.max a ∈ l := by
  intro l
  induction l with
  | nil => intro a; exact Or.inl rfl
  | cons b t ih =>
      intro a
      rcases ih (Nat.max a b) with h | h
      · rcases Nat.le_total a b with hab | hba
        · have hm : Nat.max a b = b := Nat.max_eq_right hab
          exact Or.inr (by rw [List.foldl_cons, h, hm]; exact List.mem_cons_self b t)
        · have hm : Nat.max a b = a := Nat.max_eq_left hba
          exact Or.inl (by rw [List.foldl_cons, h, hm])
      · exact Or.inr (List.mem_cons_of_mem b h)

/-- Membership in the result of `getLatestFunctionStatuses`: exactly the
rows whose timestamp equals the per-name maximum. -/
theorem mem_getLatestFunctionStatuses (store : Store) (r : StatusRow) :
    r ∈ getLatestFunctionStatuses store ↔
      (r ∈ store ∧ r.timestamp = maxTimestampFor r.functionName store) := by
  unfold getLatestFunctionStatuses
  rw [List.mem_insertionSort, List.mem_filter]
  simp

/-- For every name that occurs in the store, some row of that name attains
the per-name maximum timestamp. -/
theorem maxTimestampFor_attained (name : String) (store : Store)
    (hex : ∃ r ∈ store, r.functionName = name) :
    ∃ r ∈ store, r.functionName = name ∧ r.timestamp = maxTimestampFor name store := by
  obtain ⟨r0, hr0, hn0⟩ := hex
  set l := store.filter (fun r => decide (r.functionName = name)) with hl
  have hr0l : r0 ∈ l := by
    rw [hl]
    exact List.mem_filter.mpr ⟨hr0, by simp [hn0]⟩
  have hM : maxTimestampFor name store = (l.map (fun r => r.timestamp)).foldl Nat.max 0 := by
    unfold maxTimestampFor
    rw [List.foldl_map]
  rcases foldl_max_eq_or_mem (l.map (fun r => r.timestamp)) 0 with h0 | hmem
  · have hle := foldl_max_le_of_mem (l.map (fun r => r.timestamp)) 0 r0.timestamp
      (List.mem_map.mpr ⟨r0, hr0l, rfl⟩)
    refine ⟨r0, hr0, hn0, ?_⟩
    rw [hM, h0]
    omega
  · obtain ⟨r, hrl, hrt⟩ := List.mem_map.mp hmem
    rw [hl] at hrl
    have hsplit := List.mem_filter.mp hrl
    refine ⟨r, hsplit.1, ?_, ?_⟩
    · simpa using hsplit.2
    · rw [hM, hrt]

/-- C7 (amended): `getLatestFunctionStatuses` returns exactly the rows
whose timestamp is maximal among the rows of the same function name,
sorted by function name; when no two rows of the same name share a
timestamp, this is exactly one row — the max-timestamp row — per distinct
name present in the store.  (With a timestamp tie the SQL keeps every tied
row, see the counterexample.) -/
theorem C7_latest_statuses (store : Store) :
    (∀ r : StatusRow, r ∈ getLatestFunctionStatuses store ↔
       (r ∈ store ∧ r.timestamp = maxTimestampFor r.functionName store)) ∧
    (getLatestFunctionStatuses store).Sorted statusRowNameLe ∧
    (NoTimestampTies store → ∀ name : String, (∃ r ∈ store, r.functionName = name) →
       ∃! r : StatusRow, r ∈ getLatestFunctionStatuses store ∧ r.functionName = name) := by
  refine ⟨mem_getLatestFunctionStatuses store, List.sorted_insertionSort statusRowNameLe _, ?_⟩
  intro hties name hex
  obtain ⟨r, hrs, hrn, hrt⟩ := maxTimestampFor_attained name store hex
  refine ⟨r, ⟨?_, hrn⟩, ?_⟩
  · exact (mem_getLatestFunctionStatuses store r).mpr ⟨hrs, by rw [hrn]; exact hrt⟩
  · intro y hy
    obtain ⟨hymem, hyn⟩ := hy
    obtain ⟨hys, hyt⟩ := (mem_getLatestFunctionStatuses store y).mp hymem
    refine hties y hys r hrs (by rw [hyn, hrn]) ?_
    rw [hyt, hyn, hrt]

/-- First row of the tied pair used against C7. -/
def c7TieR1 : StatusRow :=
  { functionName := "f", status := "deployed", message := "m1", timestamp := 5 }

/-- Second row of the tied pair used against C7. -/
def c7TieR2 : StatusRow :=
  { functionName := "f", status := "paused", message := "m2", timestamp := 5 }

/-- Store with two distinct rows of the same name tied on the maximum
timestamp. -/
def c7TieStore : Store := [c7TieR1, c7TieR2]

/-- Counterexample to C7 as stated: on a store whose single function name
has two distinct rows sharing the maximum timestamp, the query returns
both rows, not exactly one record per distinct function name. -/
theorem C7_counterexample :
    getLatestFunctionStatuses c7TieStore = [c7TieR1, c7TieR2] ∧
    c7TieR1.functionName = c7TieR2.functionName ∧
    c7TieR1 ≠ c7TieR2 :=
  ⟨by decide, by decide, by decide⟩

/-- Tie-free two-row store for the C7 witness. -/
def c7wStore : Store :=
  [{ functionName := "f", status := "deployed", message := "m1", timestamp := 3 },
   { functionName := "f", status := "paused", message := "m2", timestamp := 7 }]

/-- Witness for C7 (amended) at a concrete tie-free store. -/
theorem C7_latest_statuses_witness :
    NoTimestampTies c7wStore ∧ (∃ r ∈ c7wStore, r.functionName = "f") ∧
    (∃! r : StatusRow, r ∈ getLatestFunctionStatuses c7wStore ∧ r.functionName = "f") :=
  ⟨by decide, by decide, (C7_latest_statuses c7wStore).2.2 (by decide) "f" (by decide)⟩

/-- C8 (amended): `mapStatus` always lands in the five-value recognized
set `{deployed, undeployed, paused, deploying, undeploying}` (which does
not contain `error`), and on every unrecognized lowercased input it
returns `undeployed` together with exactly one fallback log line emitted
at info level (through `log`, not `warn`). -/
theorem C8_mapStatus_fallback (raw : String) :
    (mapStatus raw).1 ∈ recognizedStatuses ∧
    (toLowerCase raw ∉ recognizedStatuses →
      mapStatus raw = ("undeployed", [(LogLevel.info, unknownStatusMessage raw)])) := by
  constructor
  · by_cases h1 : toLowerCase raw = "deployed" <;>
    by_cases h2 : toLowerCase raw = "undeployed" <;>
    by_cases h3 : toLowerCase raw = "paused" <;>
    by_cases h4 : toLowerCase raw = "deploying" <;>
    by_cases h5 : toLowerCase raw = "undeploying" <;>
    simp [mapStatus, h1, h2, h3, h4, h5, recognizedStatuses]
  · intro h
    simp only [recognizedStatuses, List.mem_cons, List.not_mem_nil, or_false] at h
    push_neg at h
    obtain ⟨h1, h2, h3, h4, h5⟩ := h
    simp [mapStatus, h1, h2, h3, h4, h5]

/-- Counterexample to C8 as stated: the raw status `error` — a member of
the claimed enumerated set — is not recognized by `mapStatus`; it is
mapped to `undeployed` and the fallback is logged at info level, with no
warning-level log line at all. -/
theorem C8_counterexample :
    (mapStatus "error").1 = "undeployed" ∧
    (mapStatus "error").2.countP (fun e => decide (e.1 = LogLevel.warn)) = 0 ∧
    (mapStatus "error").2.countP (fun e => decide (e.1 = LogLevel.info)) = 1 :=
  ⟨by decide, by decide, by decide⟩

/-- Witness for C8 (amended) at the concrete unrecognized input `error`. -/
theorem C8_mapStatus_fallback_witness :
    toLowerCase "error" ∉ recognizedStatuses ∧
    mapStatus "error" = ("undeployed", [(LogLevel.info, unknownStatusMessage "error")]) :=
  ⟨by decide, (C8_mapStatus_fallback "error").2 (by decide)⟩

/-- C10 (amended): `removeOutdatedFunctions` never raises: for every
function list, including the empty one, it completes and keeps exactly the
rows whose function name is in the list (SQLite evaluates `NOT IN ()` as
true, so the empty list deletes every row); for each listed name the full
row history of that name is untouched. -/
theorem C10_remove_semantics (currentFunctions : List String) (store : Store) :
    removeOutdatedFunctions currentFunctions store
      = Except.ok (removeOutdatedFunctionsRun currentFunctions store) ∧
    (∀ r : StatusRow, r ∈ removeOutdatedFunctionsRun currentFunctions store ↔
      (r ∈ store ∧ r.functionName ∈ currentFunctions)) ∧
    (∀ name ∈ currentFunctions,
      (removeOutdatedFunctionsRun currentFunctions store).filter
          (fun r => decide (r.functionName = name))
        = store.filter (fun r => decide (r.functionName = name))) := by
  refine ⟨rfl, ?_, ?_⟩
  · intro r
    simp [removeOutdatedFunctionsRun, List.mem_filter]
  · intro name hname
    unfold removeOutdatedFunctionsRun
    rw [List.filter_filter]
    apply List.filter_congr
    intro r _
    by_cases h : r.functionName = name
    · simp [h, hname]
    · simp [h]

/-- Nonempty store emptied by the empty-list delete. -/
def c10Store : Store :=
  [{ functionName := "f1", status := "deployed", message := "m", timestamp := 1 },
   { functionName := "f2", status := "paused", message := "m2", timestamp := 2 }]

/-- Counterexample to C10 as stated: called with the empty list on a
nonempty store, the operation completes successfully — no error is raised
— and deletes every row. -/
theorem C10_counterexample :
    removeOutdatedFunctions [] c10Store = Except.ok [] ∧
    c10Store ≠ [] ∧
    removeOutdatedFunctionsRun [] c10Store = [] :=
  ⟨rfl, by decide, rfl⟩

/-- Store with history for `f1` plus a row for an unlisted name, for the
C10 witness. -/
def c10wStore : Store :=
  [{ functionName := "f1", status := "deployed", message := "m1", timestamp := 1 },
   { functionName := "f1", status := "paused", message := "m2", timestamp := 2 },
   { functionName := "f3", status := "deployed", message := "m3", timestamp := 3 }]

/-- Witness for C10 (amended): the full `f1` history survives a delete
with the list `["f1", "f2"]`. -/
theorem C10_remove_semantics_witness :
    ("f1" ∈ ["f1", "f2"]) ∧
    (removeOutdatedFunctionsRun ["f1", "f2"] c10wStore).filter
        (fun r => decide (r.functionName = "f1"))
      = c10wStore.filter (fun r => decide (r.functionName = "f1")) :=
  ⟨by decide, (C10_remove_semantics ["f1", "f2"] c10wStore).2.2 "f1" (by decide)⟩

end EventingWatcher
